import Mathlib

/-!
# Verification of the document ingestion pipeline

Shallow embedding of the document upload/ingestion code of
`fastapi-ai-chat-template` (files `document_service.py`, `document_crud.py`,
`document_models.py`, `document_router.py`) and proofs of the specified
properties.

Bytes are modelled as `Nat` values (each `< 256` in real inputs), byte
strings as `List Nat`, timestamps as `Nat` ticks.
-/

set_option maxRecDepth 100000

namespace IngestPipeline

/-! ## Content hasher: MD5 (RFC 1321)

`document_service._calculate_file_hash` feeds the file content to
`hashlib.md5` in 4096-byte chunks and returns the hex digest.  We implement
MD5 itself over byte lists, model the `hashlib` streaming context by the
bytes fed so far (its contract: the digest is the digest of the
concatenation of all fed chunks), and mirror the service's chunking loop.
-/

namespace MD5

/-- The 64 sine-derived round constants of RFC 1321. -/
def K : List Nat :=
  [0xd76aa478, 0xe8c7b756, 0x242070db, 0xc1bdceee,
   0xf57c0faf, 0x4787c62a, 0xa8304613, 0xfd469501,
   0x698098d8, 0x8b44f7af, 0xffff5bb1, 0x895cd7be,
   0x6b901122, 0xfd987193, 0xa679438e, 0x49b40821,
   0xf61e2562, 0xc040b340, 0x265e5a51, 0xe9b6c7aa,
   0xd62f105d, 0x02441453, 0xd8a1e681, 0xe7d3fbc8,
   0x21e1cde6, 0xc33707d6, 0xf4d50d87, 0x455a14ed,
   0xa9e3e905, 0xfcefa3f8, 0x676f02d9, 0x8d2a4c8a,
   0xfffa3942, 0x8771f681, 0x6d9d6122, 0xfde5380c,
   0xa4beea44, 0x4bdecfa9, 0xf6bb4b60, 0xbebfbc70,
   0x289b7ec6, 0xeaa127fa, 0xd4ef3085, 0x04881d05,
   0xd9d4d039, 0xe6db99e5, 0x1fa27cf8, 0xc4ac5665,
   0xf4292244, 0x432aff97, 0xab9423a7, 0xfc93a039,
   0x655b59c3, 0x8f0ccc92, 0xffeff47d, 0x85845dd1,
   0x6fa87e4f, 0xfe2ce6e0, 0xa3014314, 0x4e0811a1,
   0xf7537e82, 0xbd3af235, 0x2ad7d2bb, 0xeb86d391]

/-- The per-round left-rotation amounts of RFC 1321. -/
def S : List Nat :=
  [7, 12, 17, 22, 7, 12, 17, 22, 7, 12, 17, 22, 7, 12, 17, 22,
   5,  9, 14, 20, 5,  9, 14, 20, 5,  9, 14, 20, 5,  9, 14, 20,
   4, 11, 16, 23, 4, 11, 16, 23, 4, 11, 16, 23, 4, 11, 16, 23,
   6, 10, 15, 21, 6, 10, 15, 21, 6, 10, 15, 21, 6, 10, 15, 21]

/-- 32-bit left rotation on a value `< 2^32`. -/
def rotl32 (x s : Nat) : Nat :=
  ((x <<< s) ||| (x >>> (32 - s))) % 2 ^ 32

/-- Bitwise complement within 32 bits. -/
def not32 (x : Nat) : Nat := x ^^^ 0xffffffff

/-- Consecutive size-`c` slices of a list, by start index, mirroring
Python's `l[i:i+c] for i in range(0, len(l), c)`; used with slice sizes 64
(MD5 blocks) and 4096 (the service's read loop). -/
def slices (c : Nat) (l : List Nat) : List (List Nat) :=
  (List.range ((l.length + c - 1) / c)).map fun i => (l.drop (c * i)).take c

/-- MD5 padding: append `0x80`, zero bytes to 56 mod 64, then the
64-bit little-endian bit length. -/
def pad (msg : List Nat) : List Nat :=
  let lenBits := (msg.length * 8) % 2 ^ 64
  let zeros := (56 + 64 - ((msg.length + 1) % 64)) % 64
  msg ++ [0x80] ++ List.replicate zeros 0 ++
    ((List.range 8).map fun i => (lenBits >>> (8 * i)) % 256)

/-- Assemble a 64-byte block into sixteen 32-bit little-endian words. -/
def toWords (block : List Nat) : List Nat :=
  (List.range 16).map fun j =>
    (block.getD (4 * j) 0 + 256 * block.getD (4 * j + 1) 0 +
     65536 * block.getD (4 * j + 2) 0 + 16777216 * block.getD (4 * j + 3) 0) % 2 ^ 32

/-- The running MD5 state, four 32-bit words. -/
structure State where
  a : Nat
  b : Nat
  c : Nat
  d : Nat
deriving DecidableEq

/-- The MD5 initialization vector. -/
def init : State := ⟨0x67452301, 0xefcdab89, 0x98badcfe, 0x10325476⟩

/-- One of the 64 MD5 rounds on a block's words `M`. -/
def step (M : List Nat) (st : State) (i : Nat) : State :=
  let f :=
    if i < 16 then (st.b &&& st.c) ||| (not32 st.b &&& st.d)
    else if i < 32 then (st.d &&& st.b) ||| (not32 st.d &&& st.c)
    else if i < 48 then st.b ^^^ st.c ^^^ st.d
    else st.c ^^^ (st.b ||| not32 st.d)
  let g :=
    if i < 16 then i
    else if i < 32 then (5 * i + 1) % 16
    else if i < 48 then (3 * i + 5) % 16
    else (7 * i) % 16
  let f2 := (f + st.a + K.getD i 0 + M.getD g 0) % 2 ^ 32
  ⟨st.d, (st.b + rotl32 f2 (S.getD i 0)) % 2 ^ 32, st.b, st.c⟩

/-- Process one 64-byte block. -/
def processBlock (h : State) (block : List Nat) : State :=
  let M := toWords block
  let st := (List.range 64).foldl (step M) h
  ⟨(h.a + st.a) % 2 ^ 32, (h.b + st.b) % 2 ^ 32,
   (h.c + st.c) % 2 ^ 32, (h.d + st.d) % 2 ^ 32⟩

/-- A 32-bit word as four little-endian bytes. -/
def wordLE (x : Nat) : List Nat :=
  [x % 256, x / 256 % 256, x / 65536 % 256, x / 16777216 % 256]

/-- The MD5 digest of a byte list, as 16 bytes. -/
def md5Bytes (msg : List Nat) : List Nat :=
  let final := (slices 64 (pad msg)).foldl processBlock init
  wordLE final.a ++ wordLE final.b ++ wordLE final.c ++ wordLE final.d

/-- A hex digit character, lowercase. -/
def hexChar (n : Nat) : Char :=
  if n < 10 then Char.ofNat (48 + n) else Char.ofNat (87 + n)

/-- A byte as two lowercase hex characters. -/
def byteHex (b : Nat) : List Char :=
  [hexChar (b / 16 % 16), hexChar (b % 16)]

/-- The MD5 digest of a byte list as a lowercase hex string
(Python's `hexdigest()`). -/
def md5Hex (msg : List Nat) : String :=
  ⟨(md5Bytes msg).flatMap byteHex⟩

end MD5

/-- The `hashlib.md5` streaming context, modelled by its contract:
the state is the concatenation of all bytes fed so far. -/
structure MD5Ctx where
  fed : List Nat
deriving DecidableEq

/-- `hash_md5.update(chunk)`: feed more bytes. -/
def MD5Ctx.update (ctx : MD5Ctx) (chunk : List Nat) : MD5Ctx :=
  ⟨ctx.fed ++ chunk⟩

/-- `hash_md5.hexdigest()`: the digest of everything fed so far. -/
def MD5Ctx.hexdigest (ctx : MD5Ctx) : String :=
  MD5.md5Hex ctx.fed

/-- `DocumentService._calculate_file_hash`: iterate over the content in
4096-byte slices (`for i in range(0, len(file_content), 4096)`), feed each
slice to the MD5 context, and return the hex digest. -/
def calculate_file_hash (file_content : List Nat) : String :=
  ((MD5.slices 4096 file_content).foldl MD5Ctx.update ⟨[]⟩).hexdigest

/-! ## Data model

`document_models.py` defines the `Document` and `DocumentUpload` tables.
The `Document` columns present in the models file are embedded as-is; the
service additionally reads and writes `file_hash`, `status`, `permissions`,
`document_type`, `updated_at`, `processed_at` and the processing-metadata
columns, which are missing from the models source — those fields are
modelled from the spec (§3: content identity, lifecycle, classification,
processing metadata). -/

/-- The response codes used by the document service
(`ai_backend.types.response.response_code` is not part of the reviewed
source; the constructors are the ones named at the call sites). -/
inductive ResponseCode where
  | DOCUMENT_INVALID_FILE_TYPE
  | DOCUMENT_FILE_TOO_LARGE
  | DOCUMENT_NOT_FOUND
  | DOCUMENT_UPLOAD_ERROR
  | DOCUMENT_DOWNLOAD_ERROR
  | DOCUMENT_DELETE_ERROR
  | DATABASE_QUERY_ERROR
  | UNDEFINED_ERROR
deriving DecidableEq, Repr

/-- `HandledException(code, msg=...)`: the error value the service raises. -/
structure HandledException where
  code : ResponseCode
  msg : String
deriving DecidableEq, Repr

/-- A row of the `DOCUMENTS` table.  Columns through `is_deleted` are the
ones declared in `document_models.py`; the remaining fields are the ones
the service reads/writes on the ORM object, modelled from the spec (§3). -/
structure Document where
  document_id : String
  document_name : String
  original_filename : String
  file_key : String
  file_size : Nat
  file_type : String
  file_extension : String
  folder_id : Option String
  user_id : String
  upload_path : String
  is_public : Bool
  create_dt : Nat
  is_deleted : Bool
  file_hash : String
  status : String
  permissions : Option (List String)
  document_type : Option String
  updated_at : Option Nat
  processed_at : Option Nat
  total_pages : Option Nat
  processed_pages : Option Nat
  vector_count : Option Nat
  language : Option String
  author : Option String
  subject : Option String
  milvus_collection_name : Option String
  metadata_json : Option String
  processing_config : Option String
deriving DecidableEq, Repr

/-- The dict returned by `upload_document` (lines 109-132 and 198-220 of
`document_service.py`); the duplicate fast path adds an `is_duplicate`
key, absence is modelled as `none`. -/
structure UploadResponse where
  document_id : String
  document_name : String
  original_filename : String
  file_size : Nat
  file_type : String
  file_extension : String
  file_hash : String
  upload_path : String
  is_public : Bool
  status : String
  total_pages : Option Nat
  processed_pages : Option Nat
  vector_count : Option Nat
  language : Option String
  author : Option String
  subject : Option String
  permissions : List String
  document_type : String
  create_dt : Nat
  updated_at : Option Nat
  processed_at : Option Nat
  is_duplicate : Option Bool
deriving DecidableEq, Repr

/-- Build the `upload_document` response dict from a document row. -/
def Document.toUploadResponse (d : Document) (dup : Option Bool) : UploadResponse :=
  { document_id := d.document_id
    document_name := d.document_name
    original_filename := d.original_filename
    file_size := d.file_size
    file_type := d.file_type
    file_extension := d.file_extension
    file_hash := d.file_hash
    upload_path := d.upload_path
    is_public := d.is_public
    status := d.status
    total_pages := d.total_pages
    processed_pages := d.processed_pages
    vector_count := d.vector_count
    language := d.language
    author := d.author
    subject := d.subject
    permissions := d.permissions.getD []
    document_type := d.document_type.getD "common"
    create_dt := d.create_dt
    updated_at := d.updated_at
    processed_at := d.processed_at
    is_duplicate := dup }

/-- The dict returned by `get_document` (lines 236-259 of
`document_service.py`). -/
structure GetDocumentResponse where
  document_id : String
  document_name : String
  original_filename : String
  file_size : Nat
  file_type : String
  file_extension : String
  file_hash : String
  is_public : Bool
  status : String
  total_pages : Option Nat
  processed_pages : Option Nat
  vector_count : Option Nat
  milvus_collection_name : Option String
  language : Option String
  author : Option String
  subject : Option String
  metadata_json : Option String
  processing_config : Option String
  permissions : List String
  create_dt : Nat
  updated_at : Option Nat
  processed_at : Option Nat
deriving DecidableEq, Repr

/-- Build the `get_document` response dict from a document row. -/
def Document.toGetResponse (d : Document) : GetDocumentResponse :=
  { document_id := d.document_id
    document_name := d.document_name
    original_filename := d.original_filename
    file_size := d.file_size
    file_type := d.file_type
    file_extension := d.file_extension
    file_hash := d.file_hash
    is_public := d.is_public
    status := d.status
    total_pages := d.total_pages
    processed_pages := d.processed_pages
    vector_count := d.vector_count
    milvus_collection_name := d.milvus_collection_name
    language := d.language
    author := d.author
    subject := d.subject
    metadata_json := d.metadata_json
    processing_config := d.processing_config
    permissions := d.permissions.getD []
    create_dt := d.create_dt
    updated_at := d.updated_at
    processed_at := d.processed_at }

/-! ## Configuration and request data -/

/-- The configuration surface consumed by the service.  Modelled from the
spec: `ai_backend.config.simple_settings` is not part of the reviewed
source; §6 names the values this core consumes (maximum upload size in
bytes, allow-listed extensions, upload base path).  `mime_of` stands for
the `mimetypes.guess_type` table of the runtime environment. -/
structure Settings where
  upload_max_size : Nat
  allowed_extensions : List String
  upload_base_path : String
  mime_of : String → Option String

/-- An incoming `UploadFile`: a filename and the bytes read from it. -/
structure FileUpload where
  filename : String
  content : List Nat

/-- The persisted state touched by the service: the `DOCUMENTS` table and
the byte store (path ↦ content). -/
structure ServiceState where
  documents : List Document
  storage : List (String × List Nat)
deriving DecidableEq, Repr

/-! ## Small helpers of `DocumentService` -/

/-- Index of the last occurrence of a character, if any. -/
def lastIdxOf (ch : Char) (cs : List Char) : Option Nat :=
  ((cs.enum.filter fun p => p.2 = ch).map fun p => p.1).getLast?

/-- `Path(filename).name`: the component after the last slash. -/
def pathNameOf (cs : List Char) : List Char :=
  match lastIdxOf '/' cs with
  | none => cs
  | some i => cs.drop (i + 1)

/-- `Path(...).suffix` (pathlib): the part of the name from its last dot,
provided that dot is neither the first nor the last character. -/
def pySuffix (name : List Char) : List Char :=
  match lastIdxOf '.' name with
  | none => []
  | some i => if 0 < i ∧ i < name.length - 1 then name.drop i else []

/-- ASCII `str.lower()` on one character. -/
def lowerAscii (c : Char) : Char :=
  if 65 ≤ c.toNat ∧ c.toNat ≤ 90 then Char.ofNat (c.toNat + 32) else c

/-- `str.lstrip('.')`: drop leading dots. -/
def lstripDots : List Char → List Char
  | [] => []
  | c :: rest => if c = '.' then lstripDots rest else c :: rest

/-- `DocumentService._get_file_extension`:
`Path(filename).suffix.lower().lstrip('.')`. -/
def get_file_extension (filename : String) : String :=
  ⟨lstripDots ((pySuffix (pathNameOf filename.data)).map lowerAscii)⟩

/-- `DocumentService._get_mime_type`: `mimetypes.guess_type` with the
`application/octet-stream` fallback. -/
def get_mime_type (s : Settings) (filename : String) : String :=
  (s.mime_of filename).getD "application/octet-stream"

/-- `settings.get_upload_max_size_mb()` rendered with one decimal place
(modelled from the spec in exact arithmetic: the settings module is not
part of the reviewed source; the service formats the configured maximum
as megabytes with one decimal). -/
def formatMb (bytes : Nat) : String :=
  let tenths := bytes * 10 / (1024 * 1024)
  toString (tenths / 10) ++ "." ++ toString (tenths % 10)

/-- `DocumentService._generate_file_key`: `f"{user_id}/{filename}"`. -/
def generate_file_key (user_id filename : String) : String :=
  user_id ++ "/" ++ filename

/-- `DocumentService._get_upload_path`: base path joined with the key. -/
def get_upload_path (s : Settings) (file_key : String) : String :=
  s.upload_base_path ++ "/" ++ file_key

/-! ## Document registry operations (`DocumentCRUD`) -/

/-- `DocumentCRUD.get_document`: first row with the given id. -/
def crud_get_document (docs : List Document) (document_id : String) :
    Option Document :=
  docs.find? fun d => d.document_id = document_id

/-- Modelled from the spec: `DocumentCRUD.find_document_by_hash` is called
by `upload_document` but missing from the CRUD source.  Spec §4.2/§6
define it as the lookup-by-fingerprint of a non-deleted Document; it is
keyed by the fingerprint alone. -/
def find_document_by_hash (docs : List Document) (file_hash : String) :
    Option Document :=
  docs.find? fun d => d.file_hash = file_hash ∧ d.is_deleted = false

/-- Modelled from the spec: `DocumentCRUD.update_document_status` is
called by `upload_document` but missing from the CRUD source.  Spec §9
describes it as the typed status-transition update: it sets the status
column of the row with the given id. -/
def update_document_status (docs : List Document) (document_id status : String) :
    List Document :=
  docs.map fun d =>
    if d.document_id = document_id then { d with status := status } else d

/-- Replace the row with the given id by a new value (the ORM commit of
the in-place mutations the service performs on a fetched row). -/
def replaceDocument (docs : List Document) (document_id : String)
    (new : Document) : List Document :=
  docs.map fun d => if d.document_id = document_id then new else d

/-- `open(path, "wb")` followed by a full write: overwrite or create. -/
def storePut (storage : List (String × List Nat)) (path : String)
    (content : List Nat) : List (String × List Nat) :=
  if storage.any fun e => e.1 = path then
    storage.map fun e => if e.1 = path then (path, content) else e
  else
    storage ++ [(path, content)]

/-! ## `DocumentService.upload_document`

The embedding takes the current tick `now` (for timestamps) and its
rendered form `nowStr` (for the `%Y%m%d_%H%M%S` part of minted ids), and
returns the response or raised exception together with the state as left
behind. -/

/-- The fields the reuse path overwrites on the existing row
(lines 159-175 of `document_service.py`), including `status='completed'`
and the completion timestamps. -/
def reuseOverwrite (d : Document) (original_filename file_key : String)
    (file_size : Nat) (file_type file_extension user_id upload_path : String)
    (is_public : Bool) (now : Nat) : Document :=
  { d with
    document_name := original_filename
    original_filename := original_filename
    file_key := file_key
    file_size := file_size
    file_type := file_type
    file_extension := file_extension
    user_id := user_id
    upload_path := upload_path
    is_public := is_public
    status := "completed"
    processed_at := some now
    updated_at := some now }

/-- The row `create_document` inserts for a fresh upload
(lines 178-196 of `document_service.py`; the keyword arguments at the call
site extend the column list of `document_models.py` by the spec-modelled
fields, and `processed_at` is set right after creation). -/
def freshDocument (document_id original_filename file_key : String)
    (file_size : Nat) (file_type file_extension user_id upload_path : String)
    (is_public : Bool) (file_hash : String) (permissions : Option (List String))
    (document_type : String) (now : Nat) : Document :=
  { document_id := document_id
    document_name := original_filename
    original_filename := original_filename
    file_key := file_key
    file_size := file_size
    file_type := file_type
    file_extension := file_extension
    folder_id := none
    user_id := user_id
    upload_path := upload_path
    is_public := is_public
    create_dt := now
    is_deleted := false
    file_hash := file_hash
    status := "completed"
    permissions := permissions
    document_type := some document_type
    updated_at := none
    processed_at := some now
    total_pages := none
    processed_pages := none
    vector_count := none
    language := none
    author := none
    subject := none
    milvus_collection_name := none
    metadata_json := none
    processing_config := none }

/-- `DocumentService.upload_document`. -/
def upload_document (s : Settings) (st : ServiceState) (file : FileUpload)
    (user_id : String) (is_public : Bool) (permissions : Option (List String))
    (document_type : String) (now : Nat) (nowStr : String) :
    Except HandledException UploadResponse × ServiceState :=
  let valid_types := ["common", "type1", "type2"]
  if document_type ∉ valid_types then
    (.error ⟨.DOCUMENT_INVALID_FILE_TYPE,
      "유효하지 않은 문서 타입: " ++ document_type ++ ". 허용된 타입: " ++
        String.intercalate ", " valid_types⟩, st)
  else
    let original_filename := file.filename
    let file_extension := get_file_extension original_filename
    let file_type := get_mime_type s original_filename
    let file_content := file.content
    let file_size := file_content.length
    if file_size > s.upload_max_size then
      (.error ⟨.DOCUMENT_FILE_TOO_LARGE,
        "파일 크기가 너무 큽니다. (최대 " ++ formatMb s.upload_max_size ++ "MB)"⟩, st)
    else if file_extension ∉ s.allowed_extensions then
      (.error ⟨.DOCUMENT_INVALID_FILE_TYPE,
        "지원하지 않는 파일 형식입니다. 허용된 형식: " ++
          String.intercalate ", " s.allowed_extensions⟩, st)
    else
      let file_hash := calculate_file_hash file_content
      match find_document_by_hash st.documents file_hash with
      | some existing_doc =>
        if existing_doc.status = "completed" then
          (.ok (existing_doc.toUploadResponse (some true)), st)
        else
          -- reuse: reset to processing, rewrite the bytes, overwrite the
          -- row's mutable fields and complete it
          let docs1 := update_document_status st.documents
            existing_doc.document_id "processing"
          let file_key := generate_file_key user_id original_filename
          let upload_path := get_upload_path s file_key
          let storage1 := storePut st.storage upload_path file_content
          let newDoc := reuseOverwrite existing_doc original_filename file_key
            file_size file_type file_extension user_id upload_path is_public now
          let docs2 := replaceDocument docs1 existing_doc.document_id newDoc
          (.ok (newDoc.toUploadResponse none),
            { documents := docs2, storage := storage1 })
      | none =>
        let document_id := "doc_" ++ nowStr ++ "_" ++ file_hash.take 8
        let file_key := generate_file_key user_id original_filename
        let upload_path := get_upload_path s file_key
        let storage1 := storePut st.storage upload_path file_content
        let newDoc := freshDocument document_id original_filename file_key
          file_size file_type file_extension user_id upload_path is_public
          file_hash permissions document_type now
        (.ok (newDoc.toUploadResponse none),
          { documents := st.documents ++ [newDoc], storage := storage1 })

/-- The not-found error both `get_document` and `download_document` raise. -/
def documentNotFound : HandledException :=
  ⟨.DOCUMENT_NOT_FOUND, "문서를 찾을 수 없습니다."⟩

/-- `DocumentService.get_document`. -/
def service_get_document (docs : List Document) (document_id user_id : String) :
    Except HandledException GetDocumentResponse :=
  match crud_get_document docs document_id with
  | none => .error documentNotFound
  | some d =>
    if d.user_id ≠ user_id ∨ d.is_deleted then .error documentNotFound
    else .ok d.toGetResponse

/-- `DocumentService.download_document`: returns
`(file_content, original_filename, file_type)`. -/
def download_document (st : ServiceState) (document_id user_id : String) :
    Except HandledException (List Nat × String × String) :=
  match crud_get_document st.documents document_id with
  | none => .error documentNotFound
  | some d =>
    if d.user_id ≠ user_id ∨ d.is_deleted then .error documentNotFound
    else
      match st.storage.find? fun e => e.1 = d.upload_path with
      | none => .error ⟨.DOCUMENT_NOT_FOUND, "파일이 존재하지 않습니다."⟩
      | some e => .ok (e.2, d.original_filename, d.file_type)

/-! ## Job status store (`DOCUMENT_UPLOADS` table, `DocumentCRUD`) -/

/-- A row of the `DOCUMENT_UPLOADS` table (`document_models.py`). -/
structure DocumentUpload where
  upload_id : String
  user_id : String
  folder_id : Option String
  original_filename : String
  file_size : Option Nat
  file_type : Option String
  file_extension : Option String
  is_public : Bool
  status : String
  error_message : Option String
  result_data : Option String
  start_time : Nat
  end_time : Option Nat
  create_dt : Nat
  update_dt : Nat
deriving DecidableEq, Repr

/-- The `result_data` dict passed to `update_upload_status`: an opaque
payload (its `json.dumps` serialization) plus the three keys the method
extracts when present. -/
structure UploadResultData where
  raw : String
  file_size : Option Nat
  file_type : Option String
  file_extension : Option String
deriving DecidableEq, Repr

/-- `DocumentCRUD.create_upload`: insert a row in `processing` with the
server-default timestamps. -/
def create_upload (store : List DocumentUpload) (upload_id user_id : String)
    (original_filename : String) (folder_id : Option String) (is_public : Bool)
    (now : Nat) : List DocumentUpload :=
  store ++ [{ upload_id := upload_id
              user_id := user_id
              folder_id := folder_id
              original_filename := original_filename
              file_size := none
              file_type := none
              file_extension := none
              is_public := is_public
              status := "processing"
              error_message := none
              result_data := none
              start_time := now
              end_time := none
              create_dt := now
              update_dt := now }]

/-- Mutate the first row with the given id (`query(...).first()` followed
by attribute assignment and commit). -/
def replaceFirstUpload (store : List DocumentUpload) (upload_id : String)
    (f : DocumentUpload → DocumentUpload) : List DocumentUpload :=
  match store with
  | [] => []
  | u :: rest =>
    if u.upload_id = upload_id then f u :: rest
    else u :: replaceFirstUpload rest upload_id f

/-- The field mutations `update_upload_status` performs on the fetched
row (lines 251-266 of `document_crud.py`): the status and error message
are overwritten unconditionally, `result_data` when given also sets the
file fields its dict carries, and a terminal status stamps `end_time`. -/
def applyUploadStatus (status : String) (error_message : Option String)
    (result_data : Option UploadResultData) (now : Nat)
    (u : DocumentUpload) : DocumentUpload :=
  let u1 := { u with status := status, error_message := error_message,
                     update_dt := now }
  let u2 :=
    match result_data with
    | none => u1
    | some rd =>
      { u1 with result_data := some rd.raw
                file_size := match rd.file_size with
                             | some v => some v
                             | none => u1.file_size
                file_type := match rd.file_type with
                             | some v => some v
                             | none => u1.file_type
                file_extension := match rd.file_extension with
                                  | some v => some v
                                  | none => u1.file_extension }
  if status = "completed" ∨ status = "failed" then
    { u2 with end_time := some now }
  else u2

/-- `DocumentCRUD.update_upload_status`: returns the new table plus the
method's boolean result (`False` when the row does not exist). -/
def update_upload_status (store : List DocumentUpload) (upload_id status : String)
    (error_message : Option String) (result_data : Option UploadResultData)
    (now : Nat) : List DocumentUpload × Bool :=
  match store.find? fun u => u.upload_id = upload_id with
  | none => (store, false)
  | some _ =>
    (replaceFirstUpload store upload_id
      (applyUploadStatus status error_message result_data now), true)

/-- The predicate of `cleanup_old_uploads`' delete query:
`create_dt < cutoff_date` and status in `["completed", "failed"]`. -/
def purgeable (cutoff : Nat) (u : DocumentUpload) : Bool :=
  u.create_dt < cutoff ∧ (u.status = "completed" ∨ u.status = "failed")

/-- `DocumentCRUD.cleanup_old_uploads`: bulk-delete the rows matching
`purgeable` and return how many were deleted. -/
def cleanup_old_uploads (store : List DocumentUpload) (cutoff : Nat) :
    List DocumentUpload × Nat :=
  ((store.filter fun u => ! purgeable cutoff u),
   (store.filter fun u => purgeable cutoff u).length)

/-- Modelled from the spec: `DocumentService.start_upload` (the Ingestion
Job Scheduler, §4.3) is called by the upload router but is not part of the
reviewed source.  Per the spec it validates the declared size against the
configured maximum synchronously — failing fast with the size-exceeded
error and creating no Job — and on acceptance persists a Job row in
`processing` and returns the job handle. -/
def start_upload (s : Settings) (jobs : List DocumentUpload) (file : FileUpload)
    (user_id : String) (folder_id : Option String) (is_public : Bool)
    (upload_id : String) (now : Nat) :
    Except HandledException String × List DocumentUpload :=
  if file.content.length > s.upload_max_size then
    (.error ⟨.DOCUMENT_FILE_TOO_LARGE,
      "파일 크기가 너무 큽니다. (최대 " ++ formatMb s.upload_max_size ++ "MB)"⟩, jobs)
  else
    (.ok upload_id, create_upload jobs upload_id user_id file.filename folder_id is_public now)

/-! ## Concrete fixtures used by the witnesses -/

/-- A configuration with a 10MB maximum and the allow-list of the spec's
scenario (§8). -/
def testSettings : Settings :=
  { upload_max_size := 10485760
    allowed_extensions := ["pdf", "txt", "png"]
    upload_base_path := "uploads"
    mime_of := fun _ => none }

/-- The MD5 of the empty byte string. -/
def emptyMd5 : String := "d41d8cd98f00b204e9800998ecf8427e"

/-- A completed document row whose content hash is the hash of the empty
byte string. -/
def baseDoc : Document :=
  { document_id := "doc_20250101_d41d8cd9"
    document_name := "a.txt"
    original_filename := "a.txt"
    file_key := "u1/a.txt"
    file_size := 0
    file_type := "text/plain"
    file_extension := "txt"
    folder_id := none
    user_id := "u1"
    upload_path := "uploads/u1/a.txt"
    is_public := false
    create_dt := 1
    is_deleted := false
    file_hash := "d41d8cd98f00b204e9800998ecf8427e"
    status := "completed"
    permissions := some ["read"]
    document_type := some "common"
    updated_at := none
    processed_at := some 2
    total_pages := some 3
    processed_pages := some 3
    vector_count := some 7
    language := some "en"
    author := some "alice"
    subject := some "notes"
    milvus_collection_name := none
    metadata_json := none
    processing_config := none }

/-- The same document in `failed` status (eligible for reuse). -/
def failedDoc : Document := { baseDoc with status := "failed" }

/-- The same document soft-deleted. -/
def deletedDoc : Document := { baseDoc with is_deleted := true }

/-- A configuration whose maximum upload size is 3 bytes. -/
def smallSettings : Settings :=
  { upload_max_size := 3
    allowed_extensions := ["txt"]
    upload_base_path := "uploads"
    mime_of := fun _ => none }

/-- A job row already in the terminal `completed` state. -/
def completedJob : DocumentUpload :=
  { upload_id := "j1"
    user_id := "u1"
    folder_id := none
    original_filename := "a.txt"
    file_size := some 5
    file_type := some "text/plain"
    file_extension := some "txt"
    is_public := false
    status := "completed"
    error_message := none
    result_data := some "r"
    start_time := 0
    end_time := some 1
    create_dt := 0
    update_dt := 1 }

/-- A job row still in `processing`, created at tick 0. -/
def processingJob : DocumentUpload :=
  { completedJob with upload_id := "j2", status := "processing",
                      end_time := none, result_data := none }

/-! ## General lemmas -/

theorem flatten_range_map_slice (c : Nat) (l : List Nat) :
    ∀ m, (((List.range m).map fun i => (l.drop (c * i)).take c).flatten) =
      l.take (c * m) := by
  intro m
  induction m with
  | zero => simp
  | succ m ih =>
    rw [List.range_succ, List.map_append, List.flatten_append, ih]
    simp only [List.map_cons, List.map_nil, List.flatten_cons, List.flatten_nil,
      List.append_nil, Nat.mul_succ]
    exact (List.take_add l (c * m) c).symm

theorem slices_flatten (c : Nat) (hc : 0 < c) (l : List Nat) :
    (MD5.slices c l).flatten = l := by
  rw [MD5.slices, flatten_range_map_slice]
  apply List.take_of_length_le
  rw [Nat.mul_comm]
  have h := Nat.lt_div_mul_add (a := l.length + c - 1) hc
  generalize (l.length + c - 1) / c * c = t at h ⊢
  omega

theorem foldl_update_eq (cs : List (List Nat)) :
    ∀ acc : List Nat, cs.foldl MD5Ctx.update ⟨acc⟩ = ⟨acc ++ cs.flatten⟩ := by
  induction cs with
  | nil => intro acc; simp [MD5Ctx.update]
  | cons c cs ih =>
    intro acc
    simp only [List.foldl_cons, MD5Ctx.update, ih, List.flatten_cons, List.append_assoc]

/-- The streamed digest of the whole service hash equals the one-shot
digest: feeding the 4096-byte slices is feeding the content. -/
theorem calculate_file_hash_eq_md5Hex (b : List Nat) :
    calculate_file_hash b = MD5.md5Hex b := by
  rw [calculate_file_hash, foldl_update_eq, slices_flatten 4096 (by omega)]
  rfl

/-- Sanity: MD5 of the empty byte string is the well-known constant. -/
theorem md5Hex_empty : MD5.md5Hex [] = "d41d8cd98f00b204e9800998ecf8427e" := by decide

/-- Sanity: MD5 of `"abc"` is the RFC 1321 test-suite value. -/
theorem md5Hex_abc : MD5.md5Hex [97, 98, 99] = "900150983cd24fb0d6963f7d28e17f72" := by
  decide

theorem length_filter_bool_split (p : DocumentUpload → Bool) (l : List DocumentUpload) :
    (l.filter p).length + (l.filter fun u => ! p u).length = l.length := by
  induction l with
  | nil => rfl
  | cons x xs ih => by_cases h : p x <;> simp [List.filter_cons, h] <;> omega

/-! ## Claims -/

/-- C6: the content hash is deterministic, chunk-invariant (the 4096-byte
chunked computation of `_calculate_file_hash` equals the one-shot digest
of the whole content), total, and maps the empty input to the hash of the
empty string. -/
theorem C6_hash_deterministic_chunk_invariant :
    (∀ b : List Nat,
        calculate_file_hash b = (MD5Ctx.update ⟨[]⟩ b).hexdigest) ∧
    (∀ b b' : List Nat, b = b' →
        calculate_file_hash b = calculate_file_hash b') ∧
    calculate_file_hash [] = MD5.md5Hex [] := by
  refine ⟨fun b => ?_, fun b b' h => by rw [h], calculate_file_hash_eq_md5Hex []⟩
  rw [calculate_file_hash_eq_md5Hex]
  rfl

/-- Witness for C6 at the concrete input `"abc"`. -/
theorem C6_hash_deterministic_chunk_invariant_witness :
    calculate_file_hash [97, 98, 99] = (MD5Ctx.update ⟨[]⟩ [97, 98, 99]).hexdigest ∧
    calculate_file_hash [97, 98, 99] = calculate_file_hash [97, 98, 99] :=
  ⟨C6_hash_deterministic_chunk_invariant.1 [97, 98, 99],
   C6_hash_deterministic_chunk_invariant.2.1 [97, 98, 99] [97, 98, 99] rfl⟩

/-- C4: an upload whose content exceeds the configured maximum fails
synchronously with the size-exceeded error stating the maximum, leaving
the documents table and the byte store untouched; and (spec-modelled
scheduler) `start_upload` fails the same way without creating a Job row. -/
theorem C4_size_exceeded (s : Settings) (st : ServiceState) (file : FileUpload)
    (user_id : String) (is_public : Bool) (permissions : Option (List String))
    (document_type : String) (now : Nat) (nowStr : String)
    (jobs : List DocumentUpload) (folder_id : Option String) (upload_id : String)
    (hvalid : document_type ∈ ["common", "type1", "type2"])
    (hsize : file.content.length > s.upload_max_size) :
    upload_document s st file user_id is_public permissions document_type now nowStr =
      (.error ⟨.DOCUMENT_FILE_TOO_LARGE,
        "파일 크기가 너무 큽니다. (최대 " ++ formatMb s.upload_max_size ++ "MB)"⟩, st) ∧
    start_upload s jobs file user_id folder_id is_public upload_id now =
      (.error ⟨.DOCUMENT_FILE_TOO_LARGE,
        "파일 크기가 너무 큽니다. (최대 " ++ formatMb s.upload_max_size ++ "MB)"⟩, jobs) := by
  constructor
  · simp [upload_document, hvalid, hsize]
  · simp [start_upload, hsize]

/-- Witness for C4: a 4-byte upload against a 3-byte maximum. -/
theorem C4_size_exceeded_witness :
    ([1, 2, 3, 4] : List Nat).length > smallSettings.upload_max_size ∧
    upload_document smallSettings ⟨[], []⟩ ⟨"a.txt", [1, 2, 3, 4]⟩ "u1" false none
        "common" 0 "t" =
      (.error ⟨.DOCUMENT_FILE_TOO_LARGE,
        "파일 크기가 너무 큽니다. (최대 " ++ formatMb smallSettings.upload_max_size ++ "MB)"⟩,
       ⟨[], []⟩) :=
  ⟨by decide,
   (C4_size_exceeded smallSettings ⟨[], []⟩ ⟨"a.txt", [1, 2, 3, 4]⟩ "u1" false none
     "common" 0 "t" [] none "j1" (by decide) (by decide)).1⟩

/-- C5: an upload whose extension is outside the allow-list fails with the
invalid-file-type error naming the allowed set, leaving the documents
table and the byte store untouched (so it can never end `completed`). -/
theorem C5_disallowed_extension (s : Settings) (st : ServiceState) (file : FileUpload)
    (user_id : String) (is_public : Bool) (permissions : Option (List String))
    (document_type : String) (now : Nat) (nowStr : String)
    (hvalid : document_type ∈ ["common", "type1", "type2"])
    (hsize : ¬ file.content.length > s.upload_max_size)
    (hext : get_file_extension file.filename ∉ s.allowed_extensions) :
    upload_document s st file user_id is_public permissions document_type now nowStr =
      (.error ⟨.DOCUMENT_INVALID_FILE_TYPE,
        "지원하지 않는 파일 형식입니다. 허용된 형식: " ++
          String.intercalate ", " s.allowed_extensions⟩, st) := by
  simp [upload_document, hvalid, hsize, hext]

/-- Witness for C5: a `.exe` upload against the allow-list
`pdf, txt, png`. -/
theorem C5_disallowed_extension_witness :
    get_file_extension "malware.exe" ∉ testSettings.allowed_extensions ∧
    upload_document testSettings ⟨[], []⟩ ⟨"malware.exe", []⟩ "u1" false none
        "common" 0 "t" =
      (.error ⟨.DOCUMENT_INVALID_FILE_TYPE,
        "지원하지 않는 파일 형식입니다. 허용된 형식: " ++
          String.intercalate ", " testSettings.allowed_extensions⟩, ⟨[], []⟩) :=
  ⟨by decide,
   C5_disallowed_extension testSettings ⟨[], []⟩ ⟨"malware.exe", []⟩ "u1" false none
     "common" 0 "t" (by decide) (by decide) (by decide)⟩

/-- C7: the bulk purge removes exactly the terminal-and-old rows — every
removed row was purgeable, every purgeable row is removed, every
`processing` row survives regardless of age — and the returned count is
the number of removed rows. -/
theorem C7_cleanup_only_old_terminal (store : List DocumentUpload) (cutoff : Nat) :
    (∀ u ∈ store, u ∉ (cleanup_old_uploads store cutoff).1 →
        purgeable cutoff u = true) ∧
    (∀ u ∈ store, purgeable cutoff u = true →
        u ∉ (cleanup_old_uploads store cutoff).1) ∧
    (∀ u ∈ (cleanup_old_uploads store cutoff).1, u ∈ store) ∧
    (∀ u ∈ store, u.status = "processing" →
        u ∈ (cleanup_old_uploads store cutoff).1) ∧
    (cleanup_old_uploads store cutoff).2 +
        (cleanup_old_uploads store cutoff).1.length = store.length := by
  refine ⟨?_, ?_, ?_, ?_, ?_⟩
  · intro u hu hnot
    by_contra hp
    simp only [Bool.not_eq_true] at hp
    exact hnot (List.mem_filter.2 ⟨hu, by simp [hp]⟩)
  · intro u hu hp hmem
    have := (List.mem_filter.1 hmem).2
    simp [hp] at this
  · exact fun u hu => (List.mem_filter.1 hu).1
  · intro u hu hstatus
    exact List.mem_filter.2 ⟨hu, by simp [purgeable, hstatus]⟩
  · exact length_filter_bool_split (purgeable cutoff) store

/-- Witness for C7: with cutoff 10, the processing job created at tick 0
survives while the completed job of the same age is purged. -/
theorem C7_cleanup_only_old_terminal_witness :
    processingJob ∈ (cleanup_old_uploads [processingJob, completedJob] 10).1 ∧
    completedJob ∉ (cleanup_old_uploads [processingJob, completedJob] 10).1 :=
  ⟨(C7_cleanup_only_old_terminal [processingJob, completedJob] 10).2.2.2.1
     processingJob (by decide) (by decide),
   (C7_cleanup_only_old_terminal [processingJob, completedJob] 10).2.1
     completedJob (by decide) (by decide)⟩

/-- C10: `get_document` and `download_document` answer the one not-found
error in all three cases — row absent, row owned by someone else, row
soft-deleted — so a caller cannot tell them apart. -/
theorem C10_not_found_uniform (st : ServiceState) (document_id user_id : String)
    (h : crud_get_document st.documents document_id = none ∨
      ∃ d, crud_get_document st.documents document_id = some d ∧
        (d.user_id ≠ user_id ∨ d.is_deleted = true)) :
    service_get_document st.documents document_id user_id = .error documentNotFound ∧
    download_document st document_id user_id = .error documentNotFound := by
  rcases h with h | ⟨d, hd, hcase⟩
  · exact ⟨by simp [service_get_document, h], by simp [download_document, h]⟩
  · constructor
    · simp only [service_get_document, hd]
      rcases hcase with h1 | h1 <;> simp [h1]
    · simp only [download_document, hd]
      rcases hcase with h1 | h1 <;> simp [h1]

/-- Witness for C10 in all three cases: unknown id, foreign owner,
soft-deleted row. -/
theorem C10_not_found_uniform_witness :
    (service_get_document ([] : List Document) "nope" "u1" = .error documentNotFound ∧
      download_document ⟨[], []⟩ "nope" "u1" = .error documentNotFound) ∧
    (service_get_document [baseDoc] baseDoc.document_id "intruder" =
        .error documentNotFound ∧
      download_document ⟨[baseDoc], []⟩ baseDoc.document_id "intruder" =
        .error documentNotFound) ∧
    (service_get_document [deletedDoc] deletedDoc.document_id "u1" =
        .error documentNotFound ∧
      download_document ⟨[deletedDoc], []⟩ deletedDoc.document_id "u1" =
        .error documentNotFound) :=
  ⟨C10_not_found_uniform ⟨[], []⟩ "nope" "u1" (Or.inl (by decide)),
   C10_not_found_uniform ⟨[baseDoc], []⟩ baseDoc.document_id "intruder"
     (Or.inr ⟨baseDoc, by decide, Or.inl (by decide)⟩),
   C10_not_found_uniform ⟨[deletedDoc], []⟩ deletedDoc.document_id "u1"
     (Or.inr ⟨deletedDoc, by decide, Or.inr (by decide)⟩)⟩

/-- C1: when the fingerprint lookup hits a non-deleted `completed`
document, `upload_document` returns that document's public view marked as
a duplicate and leaves the documents table and the byte store exactly as
they were. -/
theorem C1_duplicate_hit (s : Settings) (st : ServiceState) (file : FileUpload)
    (user_id : String) (is_public : Bool) (permissions : Option (List String))
    (document_type : String) (now : Nat) (nowStr : String) (d : Document)
    (hvalid : document_type ∈ ["common", "type1", "type2"])
    (hsize : ¬ file.content.length > s.upload_max_size)
    (hext : get_file_extension file.filename ∈ s.allowed_extensions)
    (hfind : find_document_by_hash st.documents (calculate_file_hash file.content) =
      some d)
    (hdone : d.status = "completed") :
    upload_document s st file user_id is_public permissions document_type now nowStr =
      (.ok (d.toUploadResponse (some true)), st) := by
  simp [upload_document, hvalid, hsize, hext, hfind, hdone]

/-- Witness for C1: re-submitting the bytes of the completed `baseDoc`. -/
theorem C1_duplicate_hit_witness :
    baseDoc.status = "completed" ∧
    upload_document testSettings ⟨[baseDoc], []⟩ ⟨"a.txt", []⟩ "u1" false none
        "common" 3 "20250102_000000" =
      (.ok (baseDoc.toUploadResponse (some true)), ⟨[baseDoc], []⟩) :=
  ⟨rfl,
   C1_duplicate_hit testSettings ⟨[baseDoc], []⟩ ⟨"a.txt", []⟩ "u1" false none
     "common" 3 "20250102_000000" baseDoc (by decide) (by decide) (by decide)
     (by decide) rfl⟩

/-- C2: when the fingerprint lookup hits a `processing` or `failed`
document, `upload_document` reuses its identity: the response and the
stored row keep the existing `document_id`, the mutable fields are
overwritten with the new attempt's data, the status ends `completed`, and
the table gains no row. -/
theorem C2_reuse_for_retry (s : Settings) (st : ServiceState) (file : FileUpload)
    (user_id : String) (is_public : Bool) (permissions : Option (List String))
    (document_type : String) (now : Nat) (nowStr : String) (d : Document)
    (hvalid : document_type ∈ ["common", "type1", "type2"])
    (hsize : ¬ file.content.length > s.upload_max_size)
    (hext : get_file_extension file.filename ∈ s.allowed_extensions)
    (hfind : find_document_by_hash st.documents (calculate_file_hash file.content) =
      some d)
    (hretry : d.status = "processing" ∨ d.status = "failed") :
    ∃ nd : Document,
      upload_document s st file user_id is_public permissions document_type now nowStr =
        (.ok (nd.toUploadResponse none),
         { documents := replaceDocument
             (update_document_status st.documents d.document_id "processing")
             d.document_id nd,
           storage := storePut st.storage
             (get_upload_path s (generate_file_key user_id file.filename))
             file.content }) ∧
      nd.document_id = d.document_id ∧
      nd.status = "completed" ∧
      nd.document_name = file.filename ∧
      nd.original_filename = file.filename ∧
      nd.file_size = file.content.length ∧
      nd.file_type = get_mime_type s file.filename ∧
      nd.file_extension = get_file_extension file.filename ∧
      nd.upload_path = get_upload_path s (generate_file_key user_id file.filename) ∧
      nd.is_public = is_public ∧
      (replaceDocument
          (update_document_status st.documents d.document_id "processing")
          d.document_id nd).length = st.documents.length := by
  have hne : ¬ d.status = "completed" := by rcases hretry with h | h <;> simp [h]
  refine ⟨reuseOverwrite d file.filename (generate_file_key user_id file.filename)
    file.content.length (get_mime_type s file.filename)
    (get_file_extension file.filename) user_id
    (get_upload_path s (generate_file_key user_id file.filename)) is_public now,
    ?_, rfl, rfl, rfl, rfl, rfl, rfl, rfl, rfl, rfl, ?_⟩
  · simp [upload_document, hvalid, hsize, hext, hfind, hne]
  · simp [replaceDocument, update_document_status]

/-- Witness for C2: retrying the bytes of the failed `failedDoc`. -/
theorem C2_reuse_for_retry_witness :
    (failedDoc.status = "processing" ∨ failedDoc.status = "failed") ∧
    ∃ nd : Document,
      upload_document testSettings ⟨[failedDoc], []⟩ ⟨"b.txt", []⟩ "u1" false none
          "common" 9 "t" =
        (.ok (nd.toUploadResponse none),
         { documents := replaceDocument
             (update_document_status [failedDoc] failedDoc.document_id "processing")
             failedDoc.document_id nd,
           storage := storePut []
             (get_upload_path testSettings (generate_file_key "u1" "b.txt")) [] }) ∧
      nd.document_id = failedDoc.document_id ∧
      nd.status = "completed" ∧
      nd.document_name = "b.txt" ∧
      nd.original_filename = "b.txt" ∧
      nd.file_size = ([] : List Nat).length ∧
      nd.file_type = get_mime_type testSettings "b.txt" ∧
      nd.file_extension = get_file_extension "b.txt" ∧
      nd.upload_path = get_upload_path testSettings (generate_file_key "u1" "b.txt") ∧
      nd.is_public = false ∧
      (replaceDocument
          (update_document_status [failedDoc] failedDoc.document_id "processing")
          failedDoc.document_id nd).length = [failedDoc].length :=
  ⟨Or.inr rfl,
   C2_reuse_for_retry testSettings ⟨[failedDoc], []⟩ ⟨"b.txt", []⟩ "u1" false none
     "common" 9 "t" failedDoc (by decide) (by decide) (by decide) (by decide)
     (Or.inr rfl)⟩

/-- C9: the deduplication lookup takes only the fingerprint, so a
different user submitting the same bytes receives the original owner's
document view — owner's id, permissions, author and all — marked as a
duplicate, and no separate document is created. -/
theorem C9_dedup_ignores_owner (s : Settings) (st : ServiceState) (file : FileUpload)
    (user_id : String) (is_public : Bool) (permissions : Option (List String))
    (document_type : String) (now : Nat) (nowStr : String) (d : Document)
    (hvalid : document_type ∈ ["common", "type1", "type2"])
    (hsize : ¬ file.content.length > s.upload_max_size)
    (hext : get_file_extension file.filename ∈ s.allowed_extensions)
    (hfind : find_document_by_hash st.documents (calculate_file_hash file.content) =
      some d)
    (hdone : d.status = "completed")
    (howner : d.user_id ≠ user_id) :
    upload_document s st file user_id is_public permissions document_type now nowStr =
      (.ok (d.toUploadResponse (some true)), st) ∧
    (d.toUploadResponse (some true)).document_id = d.document_id ∧
    (d.toUploadResponse (some true)).permissions = d.permissions.getD [] ∧
    (d.toUploadResponse (some true)).author = d.author ∧
    (d.toUploadResponse (some true)).is_duplicate = some true := by
  exact ⟨by simp [upload_document, hvalid, hsize, hext, hfind, hdone],
    rfl, rfl, rfl, rfl⟩

/-- Witness for C9: user `u2` submits the bytes of `baseDoc`, owned by
`u1`. -/
theorem C9_dedup_ignores_owner_witness :
    baseDoc.user_id ≠ "u2" ∧
    (upload_document testSettings ⟨[baseDoc], []⟩ ⟨"a.txt", []⟩ "u2" false none
        "common" 3 "t" =
      (.ok (baseDoc.toUploadResponse (some true)), ⟨[baseDoc], []⟩) ∧
    (baseDoc.toUploadResponse (some true)).document_id = baseDoc.document_id ∧
    (baseDoc.toUploadResponse (some true)).permissions = baseDoc.permissions.getD [] ∧
    (baseDoc.toUploadResponse (some true)).author = baseDoc.author ∧
    (baseDoc.toUploadResponse (some true)).is_duplicate = some true) :=
  ⟨by decide,
   C9_dedup_ignores_owner testSettings ⟨[baseDoc], []⟩ ⟨"a.txt", []⟩ "u2" false none
     "common" 3 "t" baseDoc (by decide) (by decide) (by decide) (by decide) rfl
     (by decide)⟩

/-- Counterexample to C8: `failedDoc` belongs to `u1`; when `u2` retries
the same bytes, the stored row's owner becomes `u2`, not the inherited
`u1` the claim asserts. -/
theorem C8_counterexample :
    failedDoc.user_id = "u1" ∧
    ((upload_document testSettings ⟨[failedDoc], []⟩ ⟨"a.txt", []⟩ "u2" false none
        "common" 9 "t").2.documents.map fun d => d.user_id) = ["u2"] ∧
    ("u2" : String) ≠ "u1" := by decide

/-- C8 as amended: on the reuse path with a different uploader, ownership
transfers to the new uploader (`user_id` is among the overwritten fields);
every field outside the overwritten group — id, hash, folder, creation
time, deletion flag, permissions, type, and the processing metadata — is
unchanged. -/
theorem C8_amended_ownership_transfers (s : Settings) (st : ServiceState)
    (file : FileUpload) (user_id : String) (is_public : Bool)
    (permissions : Option (List String)) (document_type : String) (now : Nat)
    (nowStr : String) (d : Document)
    (hvalid : document_type ∈ ["common", "type1", "type2"])
    (hsize : ¬ file.content.length > s.upload_max_size)
    (hext : get_file_extension file.filename ∈ s.allowed_extensions)
    (hfind : find_document_by_hash st.documents (calculate_file_hash file.content) =
      some d)
    (hretry : d.status = "processing" ∨ d.status = "failed")
    (hdiff : d.user_id ≠ user_id) :
    ∃ nd : Document,
      upload_document s st file user_id is_public permissions document_type now nowStr =
        (.ok (nd.toUploadResponse none),
         { documents := replaceDocument
             (update_document_status st.documents d.document_id "processing")
             d.document_id nd,
           storage := storePut st.storage
             (get_upload_path s (generate_file_key user_id file.filename))
             file.content }) ∧
      nd.user_id = user_id ∧
      nd.document_id = d.document_id ∧
      nd.file_hash = d.file_hash ∧
      nd.folder_id = d.folder_id ∧
      nd.create_dt = d.create_dt ∧
      nd.is_deleted = d.is_deleted ∧
      nd.permissions = d.permissions ∧
      nd.document_type = d.document_type ∧
      nd.total_pages = d.total_pages ∧
      nd.processed_pages = d.processed_pages ∧
      nd.vector_count = d.vector_count ∧
      nd.language = d.language ∧
      nd.author = d.author ∧
      nd.subject = d.subject ∧
      nd.milvus_collection_name = d.milvus_collection_name ∧
      nd.metadata_json = d.metadata_json ∧
      nd.processing_config = d.processing_config := by
  have hne : ¬ d.status = "completed" := by rcases hretry with h | h <;> simp [h]
  refine ⟨reuseOverwrite d file.filename (generate_file_key user_id file.filename)
    file.content.length (get_mime_type s file.filename)
    (get_file_extension file.filename) user_id
    (get_upload_path s (generate_file_key user_id file.filename)) is_public now,
    ?_, rfl, rfl, rfl, rfl, rfl, rfl, rfl, rfl, rfl, rfl, rfl, rfl, rfl, rfl,
    rfl, rfl, rfl⟩
  simp [upload_document, hvalid, hsize, hext, hfind, hne]

/-- Witness for C8 as amended: `u2` retries `u1`'s failed document. -/
theorem C8_amended_ownership_transfers_witness :
    failedDoc.user_id ≠ "u2" ∧
    ∃ nd : Document,
      upload_document testSettings ⟨[failedDoc], []⟩ ⟨"a.txt", []⟩ "u2" false none
          "common" 9 "t" =
        (.ok (nd.toUploadResponse none),
         { documents := replaceDocument
             (update_document_status [failedDoc] failedDoc.document_id "processing")
             failedDoc.document_id nd,
           storage := storePut []
             (get_upload_path testSettings (generate_file_key "u2" "a.txt")) [] }) ∧
      nd.user_id = "u2" ∧
      nd.document_id = failedDoc.document_id ∧
      nd.file_hash = failedDoc.file_hash ∧
      nd.folder_id = failedDoc.folder_id ∧
      nd.create_dt = failedDoc.create_dt ∧
      nd.is_deleted = failedDoc.is_deleted ∧
      nd.permissions = failedDoc.permissions ∧
      nd.document_type = failedDoc.document_type ∧
      nd.total_pages = failedDoc.total_pages ∧
      nd.processed_pages = failedDoc.processed_pages ∧
      nd.vector_count = failedDoc.vector_count ∧
      nd.language = failedDoc.language ∧
      nd.author = failedDoc.author ∧
      nd.subject = failedDoc.subject ∧
      nd.milvus_collection_name = failedDoc.milvus_collection_name ∧
      nd.metadata_json = failedDoc.metadata_json ∧
      nd.processing_config = failedDoc.processing_config :=
  ⟨by decide,
   C8_amended_ownership_transfers testSettings ⟨[failedDoc], []⟩ ⟨"a.txt", []⟩ "u2"
     false none "common" 9 "t" failedDoc (by decide) (by decide) (by decide)
     (by decide) (Or.inr rfl) (by decide)⟩

theorem applyUploadStatus_upload_id (status : String) (e : Option String)
    (rd : Option UploadResultData) (now : Nat) (u : DocumentUpload) :
    (applyUploadStatus status e rd now u).upload_id = u.upload_id := by
  cases rd with
  | none => unfold applyUploadStatus; dsimp only; split <;> rfl
  | some rd => unfold applyUploadStatus; dsimp only; split <;> rfl

theorem applyUploadStatus_status (status : String) (e : Option String)
    (rd : Option UploadResultData) (now : Nat) (u : DocumentUpload) :
    (applyUploadStatus status e rd now u).status = status := by
  cases rd with
  | none => unfold applyUploadStatus; dsimp only; split <;> rfl
  | some rd => unfold applyUploadStatus; dsimp only; split <;> rfl

theorem find?_replaceFirstUpload (store : List DocumentUpload) (upload_id : String)
    (f : DocumentUpload → DocumentUpload) (hid : ∀ u, (f u).upload_id = u.upload_id) :
    ((replaceFirstUpload store upload_id f).find? fun v => v.upload_id = upload_id) =
      (store.find? fun v => v.upload_id = upload_id).map f := by
  induction store with
  | nil => rfl
  | cons u rest ih =>
    by_cases h : u.upload_id = upload_id
    · simp [replaceFirstUpload, h, List.find?_cons, hid]
    · simp [replaceFirstUpload, h, List.find?_cons, ih]

/-- Counterexample to C3: `update_upload_status` happily moves the
terminal `completed` job `j1` back to `processing`. -/
theorem C3_counterexample :
    completedJob.status = "completed" ∧
    ((update_upload_status [completedJob] "j1" "processing" none none 5).1.map
      fun u => u.status) = ["processing"] := by decide

/-- C3 as amended: the job status store enforces no terminal-state
immutability — `update_upload_status` overwrites an existing job's status
with exactly the requested value whatever the previous status was
(including `completed` and `failed`), and reports success. -/
theorem C3_amended_store_applies_any_status (store : List DocumentUpload)
    (upload_id status : String) (err : Option String) (rd : Option UploadResultData)
    (now : Nat) (u : DocumentUpload)
    (hfind : (store.find? fun v => v.upload_id = upload_id) = some u) :
    (((update_upload_status store upload_id status err rd now).1.find?
        fun v => v.upload_id = upload_id).map fun v => v.status) = some status ∧
    (update_upload_status store upload_id status err rd now).2 = true := by
  constructor
  · simp only [update_upload_status, hfind]
    rw [find?_replaceFirstUpload _ _ _
      (fun v => applyUploadStatus_upload_id status err rd now v), hfind]
    simp [applyUploadStatus_status]
  · simp [update_upload_status, hfind]

/-- Witness for C3 as amended: the completed job `j1` is reset to
`processing`. -/
theorem C3_amended_store_applies_any_status_witness :
    (([completedJob].find? fun v => v.upload_id = "j1") = some completedJob) ∧
    (((update_upload_status [completedJob] "j1" "processing" none none 5).1.find?
        fun v => v.upload_id = "j1").map fun v => v.status) = some "processing" ∧
    (update_upload_status [completedJob] "j1" "processing" none none 5).2 = true :=
  ⟨by decide,
   C3_amended_store_applies_any_status [completedJob] "j1" "processing" none none 5
     completedJob (by decide)⟩

end IngestPipeline
